import Mathlib

/-!
Shallow embedding of the whosonfirst-wikidata bot (three JS source files:
`index.js`, the `wd:id` variant in part_000, and the `gn:id` / `gp:id`
variants in part_001), together with theorems settling the frozen claims
about its transport retry policy, session handling, candidate resolution,
dedup/negative-cache behaviour and SQL-level candidate filtering.

Remote interactions (fetch, search, claim reads, token fetches, the
SQLite store) are modelled as explicit oracles / state threaded through
pure functions; each definition is translated from the corresponding JS
function, control-flow branch by branch.
-/

namespace WofBot

/- ## Resilient transport: `retryFetch` (part_001 lines 94-138) -/

/-- One entry of the MediaWiki error envelope `data.error.messages`. -/
structure ErrMsg where
  name : String
deriving DecidableEq, Repr

/-- The `data.error` envelope: `messages` may be absent. -/
structure ErrorEnvelope where
  messages : Option (List ErrMsg)
deriving DecidableEq, Repr

/-- A decoded JSON response body, as far as `retryFetch` inspects it:
only the optional `error` envelope. -/
structure RespBody where
  error : Option ErrorEnvelope
deriving DecidableEq, Repr

/-- Outcome of one underlying `cookieFetch` attempt: a connection-level
failure (rejected promise) or an HTTP response with a status code and a
JSON body. -/
inductive Outcome where
  | connFail
  | http (status : Nat) (body : RespBody)
deriving DecidableEq, Repr

/-- `response.ok` of the fetch API: status in the range [200, 300). -/
def responseOk (status : Nat) : Bool :=
  decide (200 ≤ status) && decide (status < 300)

/-- `data.error.messages.find(({name}) => name === n)` is truthy. -/
def hasMsg (msgs : List ErrMsg) (n : String) : Bool :=
  msgs.any (fun m => m.name == n)

/-- What one attempt of `retryFetch` does next. -/
inductive AttemptAction where
  | ret (body : RespBody)
  | backoffRetry (waitMs : Nat) (nextIteration : Nat)
  | throttleRetry (waitMs : Nat) (nextIteration : Nat)
deriving DecidableEq, Repr

/-- One attempt of `retryFetch(input, options, iteration)` from part_001.

Faithful to the source: when `response.ok` is false the log line
``console.log(`Request Error: ${response.status} ${repsonse.statusText}`)``
evaluates the undeclared identifier `repsonse` and throws a
ReferenceError *before* the `response.status >= 500` test is reached;
the surrounding `catch` then sleeps `2^iteration` seconds and recurses
with `iteration + 1`, exactly like a connection failure.  So every
non-ok status (4xx included) takes the exponential-backoff retry path
and its body is never decoded.  On an ok response the body is decoded;
a throttle message sleeps a fixed 60 s and recurses with the iteration
argument omitted (reset to 0); `no-permission` and any other error
envelope return the body to the caller; otherwise the body is returned. -/
def retryStep (iteration : Nat) (o : Outcome) : AttemptAction :=
  match o with
  | .connFail => .backoffRetry (2 ^ iteration * 1000) (iteration + 1)
  | .http status body =>
    if responseOk status then
      match body.error with
      | some env =>
        match env.messages with
        | some msgs =>
          if hasMsg msgs "actionthrottledtext" then
            .throttleRetry (1000 * 60) 0
          else
            -- `no-permission` and the generic branch both return `data`
            .ret body
        | none => .ret body
      | none => .ret body
    else
      .backoffRetry (2 ^ iteration * 1000) (iteration + 1)

/-- Run `retryFetch` against a finite script of attempt outcomes; each
recursive call consumes the next scripted outcome.  Returns the list of
(waitMs, nextIteration) pairs of the sleeps performed, and the body
returned to the caller (`none` if the script ran out while retrying). -/
def retryFetchRun (iteration : Nat) : List Outcome → List (Nat × Nat) × Option RespBody
  | [] => ([], none)
  | o :: rest =>
    match retryStep iteration o with
    | .ret b => ([], some b)
    | .backoffRetry w i =>
      let (ws, r) := retryFetchRun i rest
      ((w, i) :: ws, r)
    | .throttleRetry w i =>
      let (ws, r) := retryFetchRun i rest
      ((w, i) :: ws, r)

/- ## Local data model and SQL candidate queries (part_001) -/

/-- One row of the `spr` table, as far as the queries read it. -/
structure SprRow where
  id : Int
  placetype : String
  is_current : Int
  is_deprecated : Int
deriving DecidableEq, Repr

/-- One row of the `concordances` table. -/
structure ConcRow where
  id : Int
  other_source : String
  other_id : Int
deriving DecidableEq, Repr

/-- A candidate of the gp:id variant: `{ id, other_id }`. -/
structure Candidate where
  id : Int
  other_id : Int
deriving DecidableEq, Repr

/-- A candidate of the gn:id variant: `{ id, placetype, other_id }`. -/
structure GnCandidate where
  id : Int
  placetype : String
  other_id : Int
deriving DecidableEq, Repr

/-- `FROM spr INNER JOIN concordances AS c ON spr.id = c.id`. -/
def joinRows (spr : List SprRow) (conc : List ConcRow) : List (SprRow × ConcRow) :=
  spr.flatMap (fun s => (conc.filter (fun c => c.id == s.id)).map (fun c => (s, c)))

/-- `GROUP BY` on a key: keep one representative row (the first) per key. -/
def dedupBy (key : SprRow × ConcRow → Int) (seen : List Int) :
    List (SprRow × ConcRow) → List (SprRow × ConcRow)
  | [] => []
  | x :: xs =>
    if key x ∈ seen then dedupBy key seen xs
    else x :: dedupBy key (key x :: seen) xs

/-- WHERE clause of the gn:id query (part_001 lines 339-342):
`spr.is_deprecated != 1 AND c.other_source = 'gn:id' AND
c.other_id NOT IN (-99, -1, 0)`. -/
def gnWhere (p : SprRow × ConcRow) : Bool :=
  p.1.is_deprecated != 1 && p.2.other_source == "gn:id" &&
    p.2.other_id != -99 && p.2.other_id != -1 && p.2.other_id != 0

/-- The gn:id candidate query, including the
`HAVING NOT c.other_source = 'wd:id'` applied to the group representative. -/
def gnQuery (spr : List SprRow) (conc : List ConcRow) : List GnCandidate :=
  (((dedupBy (fun p => p.1.id) [] ((joinRows spr conc).filter gnWhere)).filter
      (fun p => p.2.other_source != "wd:id")).map
    (fun p => ⟨p.1.id, p.1.placetype, p.2.other_id⟩))

/-- WHERE clause of the gp:id query (part_001 lines 808-811):
`spr.is_current != 0 AND c.other_source = 'gp:id' AND
c.other_id NOT IN (-99, -1, 0)`. -/
def gpWhere (p : SprRow × ConcRow) : Bool :=
  p.1.is_current != 0 && p.2.other_source == "gp:id" &&
    p.2.other_id != -99 && p.2.other_id != -1 && p.2.other_id != 0

/-- The gp:id candidate query (`GROUP BY spr.id`). -/
def gpQuery (spr : List SprRow) (conc : List ConcRow) : List Candidate :=
  ((dedupBy (fun p => p.1.id) [] ((joinRows spr conc).filter gpWhere)).map
    (fun p => ⟨p.1.id, p.2.other_id⟩))

/- ## gp:id reconciliation driver (part_001 lines 722-912) -/

/-- Observable state of the gp:id run: search requests issued, the
`woeid` negative-cache table, the `map` LinkRecord table, the number of
CSRF tokens fetched via `getToken`, and the `wbcreateclaim` writes
(entity id, wof id value, token used). -/
structure GpState where
  searches : List Int
  negative : List Int
  mapTable : List (String × Int)
  tokenCount : Nat
  writes : List (String × Int × String)
deriving DecidableEq, Repr

/-- `INSERT OR IGNORE INTO woeid VALUES (?)`. -/
def insertIgnore (l : List Int) (x : Int) : List Int :=
  if x ∈ l then l else l ++ [x]

/-- One iteration of the gp:id edit loop (part_001 lines 857-912):
search for the candidate's other_id; zero hits record the other_id in
the negative cache and skip; a hit already in the pre-loaded `edited`
set skips; otherwise fetch a fresh token via `getToken` and issue the
`wbcreateclaim` write.  Faithful detail: neither `edited` nor the `map`
table is updated after a write, and the write's outcome is ignored. -/
def gpStep (edited : List String) (search : Int → Option String)
    (tokenAt : Nat → String) (st : GpState) (c : Candidate) : GpState :=
  let st' := { st with searches := st.searches ++ [c.other_id] }
  match search c.other_id with
  | none => { st' with negative := insertIgnore st'.negative c.other_id }
  | some entityId =>
    if entityId ∈ edited then st'
    else
      { st' with
        tokenCount := st'.tokenCount + 1,
        writes := st'.writes ++ [(entityId, c.id, tokenAt st'.tokenCount)] }

/-- The sequential gp:id edit loop. -/
def gpLoop (edited : List String) (search : Int → Option String)
    (tokenAt : Nat → String) (st : GpState) (cs : List Candidate) : GpState :=
  cs.foldl (gpStep edited search tokenAt) st

/-- `Map.set` of a JS Map represented as an insertion-ordered
association list: replace in place, else append at the end. -/
def mapSet : List (Int × Candidate) → Int → Candidate → List (Int × Candidate)
  | [], k, v => [(k, v)]
  | kv :: rest, k, v => if kv.1 == k then (k, v) :: rest else kv :: mapSet rest k v

/-- Deduplicate the raw query list by wof id, last write wins
(part_001 lines 826-829). -/
def buildItems (l : List Candidate) : List (Int × Candidate) :=
  l.foldl (fun m c => mapSet m c.id c) []

/-- The candidate list entering the gp:id edit loop: dedup by wof id,
delete entries whose wof id already carries a link (`wofIds`), delete
entries whose other_id is in the persisted negative cache (`others`)
(part_001 lines 826-849). -/
def gpCandidates (wofIds others : List Int) (raw : List Candidate) : List Candidate :=
  (((buildItems raw).filter (fun kv => !(decide (kv.1 ∈ wofIds)))).filter
      (fun kv => !(decide (kv.2.other_id ∈ others)))).map Prod.snd

/-- A full gp:id run after the stores are loaded: the `woeid` table
starts as `others`, the `map` table as `mapTable`, and the filtered
candidate list is processed sequentially. -/
def gpRun (edited : List String) (search : Int → Option String)
    (tokenAt : Nat → String) (wofIds others : List Int)
    (mapTable : List (String × Int)) (raw : List Candidate) : GpState :=
  gpLoop edited search tokenAt
    { searches := [], negative := others, mapTable := mapTable,
      tokenCount := 0, writes := [] }
    (gpCandidates wofIds others raw)

/-- The login gate of part_001 (lines 672-676): a non-Success login
result throws `Error('Login Failure')` before the contribution paging,
the backfill, and the edit loop run. -/
def gpMain (loginResult : String) (edited : List String)
    (search : Int → Option String) (tokenAt : Nat → String)
    (wofIds others : List Int) (mapTable : List (String × Int))
    (raw : List Candidate) : Except String GpState :=
  if loginResult = "Success" then
    .ok (gpRun edited search tokenAt wofIds others mapTable raw)
  else
    .error "Login Failure"

/-- The backfill loop (part_001 lines 761-792): for each entity in
contribution history but missing from the `map` table, read its wof
claims and insert one awaited `map` row per claim value before moving
to the next entity.  `claimVals e` is the list of parsed claim values
of entity `e`. -/
def backfill (claimVals : String → List Int) (missing : List String)
    (mapTable : List (String × Int)) : List (String × Int) :=
  missing.foldl (fun mt e => mt ++ (claimVals e).map (fun w => (e, w))) mapTable

/- ## index.js model (lines 140-220) -/

/-- A remote operation issued by index.js after the login POST. -/
inductive ROp where
  | csrfFetch
  | claimRead (entity : String)
  | createClaim (entity : String) (value : Int) (token : String)
deriving DecidableEq, Repr

/-- The index.js edit loop (lines 184-220).  `claims other = none`
models a response without a `claims` key: `claims[property]` then
throws a TypeError and the run crashes (second component `true`);
`some b` models a claims map where `b` says whether the target property
is present.  Every write reuses the single `csrftoken` fetched before
the loop. -/
def indexEditLoop (csrftoken : String) (claims : String → Option Bool) :
    List (Int × String) → List ROp × Bool
  | [] => ([], false)
  | (id, other) :: rest =>
    match claims other with
    | none => ([ROp.claimRead other], true)
    | some true =>
      let (ops, crashed) := indexEditLoop csrftoken claims rest
      (ROp.claimRead other :: ops, crashed)
    | some false =>
      let (ops, crashed) := indexEditLoop csrftoken claims rest
      (ROp.claimRead other :: ROp.createClaim other id csrftoken :: ops, crashed)

/-- index.js after the login POST (lines 162-220): the login result is
only logged — there is no check — and the run proceeds unconditionally
to a single CSRF-token fetch and then the edit loop. -/
def indexAfterLogin (loginResult : String) (csrftoken : String)
    (claims : String → Option Bool) (list : List (Int × String)) :
    List ROp × Bool :=
  let _ := loginResult
  let (ops, crashed) := indexEditLoop csrftoken claims list
  (ROp.csrfFetch :: ops, crashed)

/- ## part_000 wd:id edit-loop model (lines 234-274) -/

/-- What one iteration of the part_000 edit loop does. -/
inductive P0Result where
  | errorLogged (entity : String)
  | write (entity : String) (value : Int)
  | skip (entity : String)
deriving DecidableEq, Repr

/-- One iteration of the part_000 wd:id edit loop: an undefined claims
map (`none`) is `console.error`-logged and the candidate is skipped
with no write; a defined map without the target property proceeds to
the write; a present claim skips. -/
def part000Step (claims : String → Option Bool) (c : Int × String) : P0Result :=
  match claims c.2 with
  | none => .errorLogged c.2
  | some hasP => if hasP then .skip c.2 else .write c.2 c.1

/-- The whole part_000 edit loop. -/
def part000Run (claims : String → Option Bool) (list : List (Int × String)) :
    List P0Result :=
  list.map (part000Step claims)

/- ## gn:id edit loop with type validation (part_001 lines 364-443) -/

/-- An event of the gn:id edit loop. -/
inductive GnEvent where
  | searchOp (other_id : Int)
  | skipNoEntity (id : Int)
  | skipAlreadyEdited (entity : String)
  | skipError (entity : String)
  | skipConflict (entity : String) (instanceOf : List String)
  | write (entity : String) (value : Int) (token : String)
deriving DecidableEq, Repr

/-- What one gn:id iteration does after its search request.
`respClaims entity`: `none` models a wbgetclaims response whose
`claims` key is undefined (logged, skipped); `some none` a claims map
without a P31 key (accepted); `some (some l)` the list of existing P31
values.  The JS rejects only when the P31 list is nonempty and
`instanceOf.find(id => placetypes.get(placetype).has(id))` finds
nothing, i.e. when no existing value is in the acceptance set;
otherwise it fetches a fresh token and writes. -/
def gnDecide (edited : List String) (search : Int → Option String)
    (respClaims : String → Option (Option (List String)))
    (accept : String → List String) (tokenAt : Nat → String)
    (k : Nat) (c : GnCandidate) : Nat × List GnEvent :=
  match search c.other_id with
  | none => (k, [GnEvent.skipNoEntity c.id])
  | some entityId =>
    if entityId ∈ edited then (k, [GnEvent.skipAlreadyEdited entityId])
    else
      match respClaims entityId with
      | none => (k, [GnEvent.skipError entityId])
      | some none => (k + 1, [GnEvent.write entityId c.id (tokenAt k)])
      | some (some l) =>
        if l.isEmpty then (k + 1, [GnEvent.write entityId c.id (tokenAt k)])
        else if l.any (fun v => decide (v ∈ accept c.placetype)) then
          (k + 1, [GnEvent.write entityId c.id (tokenAt k)])
        else (k, [GnEvent.skipConflict entityId l])

/-- One gn:id iteration: the search request is always issued first,
then the decision events follow. -/
def gnStep (edited : List String) (search : Int → Option String)
    (respClaims : String → Option (Option (List String)))
    (accept : String → List String) (tokenAt : Nat → String)
    (st : Nat × List GnEvent) (c : GnCandidate) : Nat × List GnEvent :=
  let d := gnDecide edited search respClaims accept tokenAt st.1 c
  (d.1, st.2 ++ GnEvent.searchOp c.other_id :: d.2)

/-- The sequential gn:id edit loop over the query's candidate list. -/
def gnRun (edited : List String) (search : Int → Option String)
    (respClaims : String → Option (Option (List String)))
    (accept : String → List String) (tokenAt : Nat → String)
    (list : List GnCandidate) : Nat × List GnEvent :=
  list.foldl (gnStep edited search respClaims accept tokenAt) (0, [])

/-- The search requests among a list of gn:id events. -/
def gnSearches (evs : List GnEvent) : List Int :=
  evs.filterMap (fun e =>
    match e with
    | GnEvent.searchOp i => some i
    | _ => none)

end WofBot

namespace WofBot

/- ## Claim C4 / C5 theorems -/

/-- C4: the claim says a 4xx response is never retried and its decoded
body is returned as-is.  In the code, the error-log line inside
`retryFetch` references the undeclared variable `repsonse`, so every
non-ok response — 4xx included — raises a ReferenceError that the catch
block handles with an exponential-backoff retry; the 4xx body is never
returned.  Evaluated at the failing input: an HTTP 404 response at
iterations 0 and 1 yields backoff retries of 1 s and 2 s, not a
returned body. -/
theorem c4_fourxx_is_retried :
    retryStep 0 (Outcome.http 404 ⟨none⟩) = .backoffRetry 1000 1 ∧
    retryStep 1 (Outcome.http 404 ⟨none⟩) = .backoffRetry 2000 2 ∧
    retryStep 0 (Outcome.http 404 ⟨none⟩) ≠ .ret ⟨none⟩ ∧
    retryFetchRun 0 [Outcome.http 404 ⟨none⟩, Outcome.http 404 ⟨none⟩,
        Outcome.http 200 ⟨none⟩] = ([(1000, 1), (2000, 2)], some ⟨none⟩) := by
  decide

/-- C5: whenever an ok response's decoded body carries an error envelope
naming `actionthrottledtext`, `retryFetch` sleeps exactly 60 000 ms —
independent of the current iteration count — and recurses with the
iteration argument omitted, i.e. reset to 0 (never incremented). -/
theorem c5_throttle_fixed_wait (iteration status : Nat) (msgs : List ErrMsg)
    (hok : responseOk status = true)
    (hth : hasMsg msgs "actionthrottledtext" = true) :
    retryStep iteration (Outcome.http status ⟨some ⟨some msgs⟩⟩) =
      .throttleRetry 60000 0 := by
  simp [retryStep, hok, hth]

theorem c5_throttle_fixed_wait_witness :
    responseOk 200 = true ∧
    hasMsg [⟨"actionthrottledtext"⟩] "actionthrottledtext" = true ∧
    retryStep 7 (Outcome.http 200 ⟨some ⟨some [⟨"actionthrottledtext"⟩]⟩⟩) =
      .throttleRetry 60000 0 :=
  ⟨by decide, by decide,
    c5_throttle_fixed_wait 7 200 [⟨"actionthrottledtext"⟩] (by decide) (by decide)⟩

/- ## Structural lemmas about the gp:id loop -/

theorem gpStep_mapTable (edited : List String) (search : Int → Option String)
    (tokenAt : Nat → String) (st : GpState) (c : Candidate) :
    (gpStep edited search tokenAt st c).mapTable = st.mapTable := by
  unfold gpStep
  cases search c.other_id
  · rfl
  · dsimp only
    split <;> rfl

theorem gpStep_searches (edited : List String) (search : Int → Option String)
    (tokenAt : Nat → String) (st : GpState) (c : Candidate) :
    (gpStep edited search tokenAt st c).searches = st.searches ++ [c.other_id] := by
  unfold gpStep
  cases search c.other_id
  · rfl
  · dsimp only
    split <;> rfl

theorem gpStep_negative_subset (edited : List String) (search : Int → Option String)
    (tokenAt : Nat → String) (st : GpState) (c : Candidate) :
    st.negative ⊆ (gpStep edited search tokenAt st c).negative := by
  unfold gpStep
  cases search c.other_id
  · dsimp only
    unfold insertIgnore
    split
    · exact fun x hx => hx
    · exact fun x hx => List.mem_append_left _ hx
  · dsimp only
    split <;> exact fun x hx => hx

theorem gpLoop_mapTable (edited : List String) (search : Int → Option String)
    (tokenAt : Nat → String) :
    ∀ (cs : List Candidate) (st : GpState),
      (gpLoop edited search tokenAt st cs).mapTable = st.mapTable := by
  intro cs
  induction cs with
  | nil => intro st; rfl
  | cons c cs ih =>
    intro st
    have : gpLoop edited search tokenAt st (c :: cs) =
        gpLoop edited search tokenAt (gpStep edited search tokenAt st c) cs := rfl
    rw [this, ih, gpStep_mapTable]

theorem gpLoop_searches (edited : List String) (search : Int → Option String)
    (tokenAt : Nat → String) :
    ∀ (cs : List Candidate) (st : GpState),
      (gpLoop edited search tokenAt st cs).searches =
        st.searches ++ cs.map (fun c => c.other_id) := by
  intro cs
  induction cs with
  | nil => intro st; simp [gpLoop]
  | cons c cs ih =>
    intro st
    have : gpLoop edited search tokenAt st (c :: cs) =
        gpLoop edited search tokenAt (gpStep edited search tokenAt st c) cs := rfl
    rw [this, ih, gpStep_searches]
    simp

theorem gpLoop_negative_subset (edited : List String) (search : Int → Option String)
    (tokenAt : Nat → String) :
    ∀ (cs : List Candidate) (st : GpState),
      st.negative ⊆ (gpLoop edited search tokenAt st cs).negative := by
  intro cs
  induction cs with
  | nil => intro st; exact fun x hx => hx
  | cons c cs ih =>
    intro st
    have : gpLoop edited search tokenAt st (c :: cs) =
        gpLoop edited search tokenAt (gpStep edited search tokenAt st c) cs := rfl
    rw [this]
    exact fun x hx => ih _ (gpStep_negative_subset edited search tokenAt st c hx)

theorem gpLoop_write_targets (edited : List String) (search : Int → Option String)
    (tokenAt : Nat → String) :
    ∀ (cs : List Candidate) (st : GpState),
      (gpLoop edited search tokenAt st cs).writes.map (fun w => w.1) =
        st.writes.map (fun w => w.1) ++
          (cs.filterMap (fun c => search c.other_id)).filter
            (fun x => !(decide (x ∈ edited))) := by
  intro cs
  induction cs with
  | nil => intro st; simp [gpLoop]
  | cons c cs ih =>
    intro st
    have hstep : gpLoop edited search tokenAt st (c :: cs) =
        gpLoop edited search tokenAt (gpStep edited search tokenAt st c) cs := rfl
    rw [hstep, ih]
    cases h : search c.other_id with
    | none =>
      have hw : (gpStep edited search tokenAt st c).writes = st.writes := by
        unfold gpStep
        rw [h]
      rw [hw]
      simp [h]
    | some entityId =>
      by_cases hm : entityId ∈ edited
      · have hw : (gpStep edited search tokenAt st c).writes = st.writes := by
          unfold gpStep
          rw [h]
          simp [hm]
        rw [hw]
        simp [h, hm]
      · have hw : (gpStep edited search tokenAt st c).writes =
            st.writes ++ [(entityId, c.id, tokenAt st.tokenCount)] := by
          unfold gpStep
          rw [h]
          simp [hm]
        rw [hw]
        simp [h, hm]

theorem gpLoop_token_inv (edited : List String) (search : Int → Option String)
    (tokenAt : Nat → String) :
    ∀ (cs : List Candidate) (st : GpState),
      st.tokenCount = st.writes.length →
      st.writes.map (fun w => w.2.2) = (List.range st.writes.length).map tokenAt →
      (gpLoop edited search tokenAt st cs).tokenCount =
          (gpLoop edited search tokenAt st cs).writes.length ∧
        (gpLoop edited search tokenAt st cs).writes.map (fun w => w.2.2) =
          (List.range (gpLoop edited search tokenAt st cs).writes.length).map tokenAt := by
  intro cs
  induction cs with
  | nil => intro st h1 h2; exact ⟨h1, h2⟩
  | cons c cs ih =>
    intro st h1 h2
    have hstep : gpLoop edited search tokenAt st (c :: cs) =
        gpLoop edited search tokenAt (gpStep edited search tokenAt st c) cs := rfl
    rw [hstep]
    apply ih
    · cases h : search c.other_id with
      | none =>
        unfold gpStep
        rw [h]
        exact h1
      | some entityId =>
        unfold gpStep
        rw [h]
        by_cases hm : entityId ∈ edited
        · simp [hm, h1]
        · simp [hm, h1]
    · cases h : search c.other_id with
      | none =>
        unfold gpStep
        rw [h]
        exact h2
      | some entityId =>
        unfold gpStep
        rw [h]
        by_cases hm : entityId ∈ edited
        · simp [hm, h2]
        · simp only [hm, if_neg, ite_false]
          rw [List.map_append, List.length_append, h2, h1]
          simp [List.range_succ]

/- ## Membership lemmas for candidate filtering and the SQL queries -/

theorem mem_mapSet (k : Int) (v : Candidate) :
    ∀ (m : List (Int × Candidate)) (kv : Int × Candidate),
      kv ∈ mapSet m k v → kv = (k, v) ∨ kv ∈ m := by
  intro m
  induction m with
  | nil =>
    intro kv h
    simp [mapSet] at h
    left
    exact h
  | cons p rest ih =>
    intro kv h
    unfold mapSet at h
    split at h
    · rcases List.mem_cons.mp h with h | h
      · left; exact h
      · right; exact List.mem_cons_of_mem _ h
    · rcases List.mem_cons.mp h with h | h
      · right; rw [h]; exact List.mem_cons_self _ _
      · rcases ih kv h with h | h
        · left; exact h
        · right; exact List.mem_cons_of_mem _ h

theorem mem_buildItems_aux :
    ∀ (raw : List Candidate) (acc : List (Int × Candidate)) (kv : Int × Candidate),
      kv ∈ raw.foldl (fun m c => mapSet m c.id c) acc → kv.2 ∈ raw ∨ kv ∈ acc := by
  intro raw
  induction raw with
  | nil => intro acc kv h; right; exact h
  | cons c raw ih =>
    intro acc kv h
    have h' := ih (mapSet acc c.id c) kv h
    rcases h' with h' | h'
    · left; exact List.mem_cons_of_mem _ h'
    · rcases mem_mapSet c.id c acc kv h' with h' | h'
      · left
        rw [h']
        exact List.mem_cons_self _ _
      · right; exact h'

theorem mem_buildItems (raw : List Candidate) (kv : Int × Candidate) :
    kv ∈ buildItems raw → kv.2 ∈ raw := by
  intro h
  rcases mem_buildItems_aux raw [] kv h with h | h
  · exact h
  · simp at h

theorem mem_gpCandidates (wofIds others : List Int) (raw : List Candidate)
    (c : Candidate) (h : c ∈ gpCandidates wofIds others raw) :
    c ∈ raw ∧ c.other_id ∉ others := by
  unfold gpCandidates at h
  rcases List.mem_map.mp h with ⟨kv, hkv, hkvc⟩
  rcases List.mem_filter.mp hkv with ⟨hkv1, hkv2⟩
  rcases List.mem_filter.mp hkv1 with ⟨hkv0, _⟩
  constructor
  · rw [← hkvc]
    exact mem_buildItems raw kv hkv0
  · rw [← hkvc]
    simpa using hkv2

theorem mem_dedupBy (key : SprRow × ConcRow → Int) :
    ∀ (l : List (SprRow × ConcRow)) (seen : List Int) (x : SprRow × ConcRow),
      x ∈ dedupBy key seen l → x ∈ l := by
  intro l
  induction l with
  | nil =>
    intro seen x h
    simp [dedupBy] at h
  | cons p rest ih =>
    intro seen x h
    unfold dedupBy at h
    split at h
    · exact List.mem_cons_of_mem _ (ih _ x h)
    · rcases List.mem_cons.mp h with h | h
      · rw [h]; exact List.mem_cons_self _ _
      · exact List.mem_cons_of_mem _ (ih _ x h)

theorem gnQuery_other_id (spr : List SprRow) (conc : List ConcRow)
    (c : GnCandidate) (h : c ∈ gnQuery spr conc) :
    c.other_id ≠ -99 ∧ c.other_id ≠ -1 ∧ c.other_id ≠ 0 := by
  unfold gnQuery at h
  rcases List.mem_map.mp h with ⟨p, hp, hpc⟩
  rcases List.mem_filter.mp hp with ⟨hp1, _⟩
  have hp2 := mem_dedupBy _ _ _ _ hp1
  rcases List.mem_filter.mp hp2 with ⟨_, hw⟩
  unfold gnWhere at hw
  simp only [Bool.and_eq_true, bne_iff_ne, ne_eq, beq_iff_eq] at hw
  rw [← hpc]
  exact ⟨hw.1.1.2, hw.1.2, hw.2⟩

theorem gpQuery_other_id (spr : List SprRow) (conc : List ConcRow)
    (c : Candidate) (h : c ∈ gpQuery spr conc) :
    c.other_id ≠ -99 ∧ c.other_id ≠ -1 ∧ c.other_id ≠ 0 := by
  unfold gpQuery at h
  rcases List.mem_map.mp h with ⟨p, hp, hpc⟩
  have hp2 := mem_dedupBy _ _ _ _ hp
  rcases List.mem_filter.mp hp2 with ⟨_, hw⟩
  unfold gpWhere at hw
  simp only [Bool.and_eq_true, bne_iff_ne, ne_eq, beq_iff_eq] at hw
  rw [← hpc]
  exact ⟨hw.1.1.2, hw.1.2, hw.2⟩

/- ## Backfill lemma -/

theorem backfill_spec (claimVals : String → List Int) :
    ∀ (missing : List String) (mapTable : List (String × Int)),
      backfill claimVals missing mapTable =
        mapTable ++ missing.flatMap (fun e => (claimVals e).map (fun w => (e, w))) := by
  intro missing
  induction missing with
  | nil => intro mt; simp [backfill]
  | cons e ms ih =>
    intro mt
    have : backfill claimVals (e :: ms) mt =
        backfill claimVals ms (mt ++ (claimVals e).map (fun w => (e, w))) := rfl
    rw [this, ih]
    simp

/- ## gn:id loop lemmas -/

theorem gnDecide_no_search (edited : List String) (search : Int → Option String)
    (respClaims : String → Option (Option (List String)))
    (accept : String → List String) (tokenAt : Nat → String)
    (k : Nat) (c : GnCandidate) :
    gnSearches (gnDecide edited search respClaims accept tokenAt k c).2 = [] := by
  unfold gnDecide
  cases search c.other_id with
  | none => rfl
  | some entityId =>
    by_cases he : entityId ∈ edited
    · simp [he, gnSearches]
    · simp only [he, if_neg, ite_false]
      cases respClaims entityId with
      | none => rfl
      | some cl =>
        cases cl with
        | none => rfl
        | some l =>
          by_cases h1 : l.isEmpty
          · simp [h1, gnSearches]
          · simp only [h1, Bool.false_eq_true, if_neg, ite_false]
            by_cases h2 : l.any (fun v => decide (v ∈ accept c.placetype))
            · simp [h2, gnSearches]
            · simp [h2, gnSearches]

theorem gnLoop_searches (edited : List String) (search : Int → Option String)
    (respClaims : String → Option (Option (List String)))
    (accept : String → List String) (tokenAt : Nat → String) :
    ∀ (list : List GnCandidate) (st : Nat × List GnEvent),
      gnSearches
          (list.foldl (gnStep edited search respClaims accept tokenAt) st).2 =
        gnSearches st.2 ++ list.map (fun c => c.other_id) := by
  intro list
  induction list with
  | nil => intro st; simp
  | cons c cs ih =>
    intro st
    have hstep : (c :: cs).foldl (gnStep edited search respClaims accept tokenAt) st =
        cs.foldl (gnStep edited search respClaims accept tokenAt)
          (gnStep edited search respClaims accept tokenAt st c) := rfl
    rw [hstep, ih]
    unfold gnStep
    simp only [gnSearches, List.filterMap_append, List.filterMap_cons]
    have hno := gnDecide_no_search edited search respClaims accept tokenAt st.1 c
    simp only [gnSearches] at hno
    rw [hno]
    simp

/- ## Claim C1 -/

/-- C1 counterexample: the claim says `createClaim` is invoked at most
once per entity id per run *even when several distinct local records
resolve via search to the same remote entity*.  In the gp:id edit loop
the `edited` set is never updated after a write, so two candidates
(wof ids 1 and 2) whose searches both return entity "Q1" (not in the
pre-loaded edited set) each trigger a `wbcreateclaim` write: "Q1" is
targeted twice in one run. -/
theorem c1_counterexample :
    ¬ (((gpRun [] (fun _ => some "Q1") (fun _ => "t") [] [] []
          [⟨1, 10⟩, ⟨2, 20⟩]).writes.map (fun w => w.1)).count "Q1" ≤ 1) := by
  decide

/-- C1 amended: entities in the pre-loaded edited set are never
targeted by a write, and *provided no two processed candidates resolve
via search to the same remote entity* (the resolved entity-id list is
duplicate-free), `createClaim` is invoked at most once per entity id
during the run. -/
theorem c1_at_most_one_write (edited : List String)
    (search : Int → Option String) (tokenAt : Nat → String)
    (wofIds others : List Int) (mapTable : List (String × Int))
    (raw : List Candidate)
    (h : ((gpCandidates wofIds others raw).filterMap
        (fun c => search c.other_id)).Nodup) :
    (∀ en ∈ edited,
      ((gpRun edited search tokenAt wofIds others mapTable raw).writes.map
        (fun w => w.1)).count en = 0) ∧
    (∀ en,
      ((gpRun edited search tokenAt wofIds others mapTable raw).writes.map
        (fun w => w.1)).count en ≤ 1) := by
  have htgt := gpLoop_write_targets edited search tokenAt
    (gpCandidates wofIds others raw)
    { searches := [], negative := others, mapTable := mapTable,
      tokenCount := 0, writes := [] }
  unfold gpRun
  rw [htgt]
  simp only [List.map_nil, List.nil_append]
  constructor
  · intro en hen
    rw [List.count_eq_zero]
    intro hmem
    rcases List.mem_filter.mp hmem with ⟨_, hp⟩
    simp at hp
    exact hp hen
  · intro en
    have hnd : (((gpCandidates wofIds others raw).filterMap
        (fun c => search c.other_id)).filter
          (fun x => !(decide (x ∈ edited)))).Nodup := h.filter _
    exact List.nodup_iff_count_le_one.mp hnd en

theorem c1_at_most_one_write_witness :
    (((gpCandidates [] [] [⟨1, 10⟩]).filterMap
        (fun c => (fun _ => some "Q1") c.other_id)).Nodup) ∧
    (((gpRun [] (fun _ => some "Q1") (fun _ => "t") [] [] []
        [⟨1, 10⟩]).writes.map (fun w => w.1)).count "Q1" ≤ 1) :=
  ⟨by decide,
    (c1_at_most_one_write [] (fun _ => some "Q1") (fun _ => "t") [] [] []
      [⟨1, 10⟩] (by decide)).2 "Q1"⟩

/- ## Claim C2 -/

/-- C2 counterexample: after a write the claim demands a LinkRecord in
the `map` table before the driver moves on.  One gp:id loop iteration
whose candidate (wof id 10, other_id 5) resolves to "Q1" and is
written leaves the `map` table exactly as it was (empty): no
LinkRecord is persisted for the write during the run. -/
theorem c2_counterexample :
    (gpStep [] (fun _ => some "Q1") (fun _ => "t")
        { searches := [], negative := [], mapTable := [], tokenCount := 0,
          writes := [] } ⟨10, 5⟩).writes = [("Q1", 10, "t")] ∧
    (gpStep [] (fun _ => some "Q1") (fun _ => "t")
        { searches := [], negative := [], mapTable := [], tokenCount := 0,
          writes := [] } ⟨10, 5⟩).mapTable = [] := by
  decide

/-- C2 amended: the gp:id edit loop never touches the `map` table — a
create-claim write persists no LinkRecord during the run (the link is
rediscovered from contribution history on the next run); LinkRecords
are persisted one awaited row at a time only by the pre-loop backfill,
which appends exactly the links discovered from the claims of the
entities missing from the table. -/
theorem c2_linkrecord_persistence (edited : List String)
    (search : Int → Option String) (tokenAt : Nat → String)
    (wofIds others : List Int) (mapTable : List (String × Int))
    (raw : List Candidate) (claimVals : String → List Int)
    (missing : List String) (mt : List (String × Int)) :
    (gpRun edited search tokenAt wofIds others mapTable raw).mapTable = mapTable ∧
    backfill claimVals missing mt =
      mt ++ missing.flatMap (fun e => (claimVals e).map (fun w => (e, w))) := by
  constructor
  · unfold gpRun
    exact gpLoop_mapTable edited search tokenAt _ _
  · exact backfill_spec claimVals missing mt

/- ## Claim C3 -/

/-- C3 counterexample: in index.js the login result is only logged.
With a non-Success result ("Failed") the run still issues the CSRF
fetch, a claim read and a create-claim write — it does not abort. -/
theorem c3_counterexample :
    (indexAfterLogin "Failed" "tok" (fun _ => some false) [(1, "Q5")]).1 =
      [ROp.csrfFetch, ROp.claimRead "Q5", ROp.createClaim "Q5" 1 "tok"] ∧
    "Failed" ≠ "Success" := by
  decide

/-- C3 amended: in the part_000/part_001 variants a non-Success login
result throws `Error('Login Failure')` and the run produces no driver
state — no contribution paging, search, claim read or write is issued;
the index.js variant merely logs the result and continues. -/
theorem c3_login_gate (loginResult : String) (edited : List String)
    (search : Int → Option String) (tokenAt : Nat → String)
    (wofIds others : List Int) (mapTable : List (String × Int))
    (raw : List Candidate) (h : loginResult ≠ "Success") :
    gpMain loginResult edited search tokenAt wofIds others mapTable raw =
      .error "Login Failure" := by
  unfold gpMain
  rw [if_neg h]

theorem c3_login_gate_witness :
    ("Failed" ≠ "Success") ∧
    gpMain "Failed" [] (fun _ => none) (fun _ => "t") [] [] [] [] =
      .error "Login Failure" :=
  ⟨by decide,
    c3_login_gate "Failed" [] (fun _ => none) (fun _ => "t") [] [] [] []
      (by decide)⟩

/- ## Claim C6 -/

/-- C6 counterexample: index.js fetches the CSRF token once, before the
edit loop, and reuses it: a run with two written candidates issues a
single `csrfFetch` and two `createClaim` writes carrying the same
token "tok". -/
theorem c6_counterexample :
    (indexAfterLogin "Success" "tok" (fun _ => some false)
        [(1, "Q1"), (2, "Q2")]).1 =
      [ROp.csrfFetch, ROp.claimRead "Q1", ROp.createClaim "Q1" 1 "tok",
        ROp.claimRead "Q2", ROp.createClaim "Q2" 2 "tok"] := by
  decide

/-- C6 amended: in the part_001 variants every write is preceded by its
own `getToken` fetch — the k-th write carries the k-th freshly fetched
token and the number of token fetches equals the number of writes, so
no token is reused across two writes; index.js and the part_000 variant
instead fetch one token before the loop and reuse it for every write. -/
theorem c6_fresh_token_per_write (edited : List String)
    (search : Int → Option String) (tokenAt : Nat → String)
    (wofIds others : List Int) (mapTable : List (String × Int))
    (raw : List Candidate) :
    (gpRun edited search tokenAt wofIds others mapTable raw).writes.map
        (fun w => w.2.2) =
      (List.range
        (gpRun edited search tokenAt wofIds others mapTable raw).writes.length).map
        tokenAt ∧
    (gpRun edited search tokenAt wofIds others mapTable raw).tokenCount =
      (gpRun edited search tokenAt wofIds others mapTable raw).writes.length := by
  have := gpLoop_token_inv edited search tokenAt
    (gpCandidates wofIds others raw)
    { searches := [], negative := others, mapTable := mapTable,
      tokenCount := 0, writes := [] } (by simp) (by simp)
  exact ⟨this.2, this.1⟩

/- ## Claim C7 -/

/-- C7: negative-cache monotonicity in the gp:id variant.  (1) A
foreign id in the loaded negative cache is subtracted from the
candidate list before the loop, so no search request is ever issued for
it; (2) a zero-hit search records the candidate's foreign id in the
negative cache (`INSERT OR IGNORE`) and skips it with no write; (3) the
negative cache only grows during the run, so a foreign id recorded in a
previous run stays recorded. -/
theorem c7_negative_cache (edited : List String)
    (search : Int → Option String) (tokenAt : Nat → String)
    (wofIds others : List Int) (mapTable : List (String × Int))
    (raw : List Candidate) :
    (∀ f ∈ others,
      f ∉ (gpRun edited search tokenAt wofIds others mapTable raw).searches) ∧
    (∀ (st : GpState) (c : Candidate), search c.other_id = none →
      (gpStep edited search tokenAt st c).negative =
          insertIgnore st.negative c.other_id ∧
        (gpStep edited search tokenAt st c).writes = st.writes) ∧
    (∀ f ∈ others,
      f ∈ (gpRun edited search tokenAt wofIds others mapTable raw).negative) := by
  refine ⟨?_, ?_, ?_⟩
  · intro f hf hmem
    unfold gpRun at hmem
    rw [gpLoop_searches] at hmem
    simp only [List.nil_append] at hmem
    rcases List.mem_map.mp hmem with ⟨c, hc, hcf⟩
    have := (mem_gpCandidates wofIds others raw c hc).2
    rw [hcf] at this
    exact this hf
  · intro st c h
    constructor
    · unfold gpStep
      rw [h]
    · unfold gpStep
      rw [h]
  · intro f hf
    unfold gpRun
    exact gpLoop_negative_subset edited search tokenAt _ _ hf

theorem c7_negative_cache_witness :
    ((-5 : Int) ∈ [(-5 : Int)]) ∧
    (-5 : Int) ∉ (gpRun [] (fun _ => none) (fun _ => "t") [] [(-5 : Int)] []
        [⟨1, -5⟩, ⟨2, 7⟩]).searches :=
  ⟨by decide,
    (c7_negative_cache [] (fun _ => none) (fun _ => "t") [] [(-5 : Int)] []
      [⟨1, -5⟩, ⟨2, 7⟩]).1 (-5) (by decide)⟩

/- ## Claim C8 -/

/-- C8 counterexample: the claim says a candidate whose wbgetclaims
response has an undefined claims map proceeds the same way as one with
an empty claims map.  In the part_000 variant the undefined-map
candidate is error-logged and skipped with no write, while the
empty-map candidate proceeds to the write — the two behave differently;
and in index.js an undefined claims map crashes the run
(`claims[property]` throws a TypeError). -/
theorem c8_counterexample :
    part000Step (fun _ => none) (1, "QX") = .errorLogged "QX" ∧
    part000Step (fun _ => some false) (1, "QX") = .write "QX" 1 ∧
    part000Step (fun _ => none) (1, "QX") ≠
      part000Step (fun _ => some false) (1, "QX") ∧
    (indexEditLoop "tok" (fun _ => none) [(1, "QX")]).2 = true := by
  decide

/-- C8 amended: in the part_000 variant an undefined claims map does
not abort the run: the response is `console.error`-logged loudly and
the candidate is skipped *without* a write, unlike an empty claims map
(no entry for the target property), which proceeds to the write; a
present claim skips without a write. -/
theorem c8_undefined_claims (claims : String → Option Bool) (id : Int)
    (other : String) :
    (claims other = none →
      part000Step claims (id, other) = .errorLogged other) ∧
    (claims other = some false →
      part000Step claims (id, other) = .write other id) ∧
    (claims other = some true →
      part000Step claims (id, other) = .skip other) := by
  refine ⟨?_, ?_, ?_⟩ <;> intro h <;> simp [part000Step, h]

theorem c8_undefined_claims_witness :
    ((fun _ => (none : Option Bool)) "QX" = none) ∧
    part000Step (fun _ => none) (1, "QX") = .errorLogged "QX" :=
  ⟨rfl, (c8_undefined_claims (fun _ => none) 1 "QX").1 rfl⟩

/- ## Claim C9 -/

/-- C9 counterexample: the claim says a candidate is rejected whenever
*any* existing P31 value is outside the acceptance set.  For a
candidate resolving to "Q9" with P31 values ["QA", "QB"] and acceptance
set ["QA"], the value "QB" is outside the set, yet the code accepts and
writes, because `instanceOf.find(...)` only asks whether *some* value
is inside the set. -/
theorem c9_counterexample :
    gnStep [] (fun _ => some "Q9") (fun _ => some (some ["QA", "QB"]))
        (fun _ => ["QA"]) (fun _ => "t") (0, []) ⟨7, "locality", 42⟩ =
      (1, [GnEvent.searchOp 42, GnEvent.write "Q9" 7 "t"]) ∧
    "QB" ∉ (["QA"] : List String) := by
  decide

/-- C9 amended: type validation rejects (skips, logging the conflicting
types) exactly when the existing P31 value list is nonempty and *none*
of its values is in the acceptance set for the record's place type; if
at least one value is in the set the candidate is accepted and written,
and an entity with no type claims at all (absent P31 key or empty
list) is accepted by default. -/
theorem c9_type_validation (edited : List String)
    (search : Int → Option String)
    (respClaims : String → Option (Option (List String)))
    (accept : String → List String) (tokenAt : Nat → String)
    (k : Nat) (evs : List GnEvent) (c : GnCandidate) (entity : String)
    (hs : search c.other_id = some entity) (he : entity ∉ edited) :
    (respClaims entity = some none →
      gnStep edited search respClaims accept tokenAt (k, evs) c =
        (k + 1, evs ++ [GnEvent.searchOp c.other_id,
          GnEvent.write entity c.id (tokenAt k)])) ∧
    (∀ l, respClaims entity = some (some l) →
      ((l = [] ∨ l.any (fun v => decide (v ∈ accept c.placetype)) = true) →
        gnStep edited search respClaims accept tokenAt (k, evs) c =
          (k + 1, evs ++ [GnEvent.searchOp c.other_id,
            GnEvent.write entity c.id (tokenAt k)])) ∧
      (l ≠ [] → l.any (fun v => decide (v ∈ accept c.placetype)) = false →
        gnStep edited search respClaims accept tokenAt (k, evs) c =
          (k, evs ++ [GnEvent.searchOp c.other_id,
            GnEvent.skipConflict entity l]))) := by
  constructor
  · intro h
    unfold gnStep gnDecide
    rw [hs]
    simp [he, h]
  · intro l h
    constructor
    · intro hcase
      unfold gnStep gnDecide
      rw [hs]
      rcases hcase with hl | hl
      · simp [he, h, hl, List.isEmpty]
      · have hne : l.isEmpty = false := by
          cases l with
          | nil => simp at hl
          | cons a as => rfl
        simp [he, h, hne, hl]
    · intro hne hnone
      unfold gnStep gnDecide
      rw [hs]
      have hemp : l.isEmpty = false := by
        cases l with
        | nil => exact absurd rfl hne
        | cons a as => rfl
      simp [he, h, hemp, hnone]

theorem c9_type_validation_witness :
    ((fun _ => some "Q9") (42 : Int) = some "Q9") ∧
    ("Q9" ∉ ([] : List String)) ∧
    gnStep [] (fun _ => some "Q9") (fun _ => some (some ["QA"]))
        (fun _ => ["QA"]) (fun _ => "t") (0, []) ⟨7, "locality", 42⟩ =
      (1, [GnEvent.searchOp 42, GnEvent.write "Q9" 7 "t"]) :=
  ⟨rfl, by decide, by
    have h := ((c9_type_validation [] (fun _ => some "Q9")
      (fun _ => some (some ["QA"])) (fun _ => ["QA"]) (fun _ => "t")
      0 [] ⟨7, "locality", 42⟩ "Q9" rfl (by decide)).2 ["QA"] rfl).1
      (Or.inr (by decide))
    simpa using h⟩

/- ## Claim C10 -/

/-- C10: in both the gn:id and gp:id variants the SQL
`c.other_id NOT IN (-99, -1, 0)` clause excludes records with those
foreign ids at query time, and since each edit loop only issues search
requests for candidates produced by its query, no search (and hence no
subsequent write, which is only reachable after a candidate's search)
is ever performed for such a record. -/
theorem c10_excluded_ids (spr : List SprRow) (conc : List ConcRow) :
    (∀ c ∈ gnQuery spr conc,
      c.other_id ≠ -99 ∧ c.other_id ≠ -1 ∧ c.other_id ≠ 0) ∧
    (∀ c ∈ gpQuery spr conc,
      c.other_id ≠ -99 ∧ c.other_id ≠ -1 ∧ c.other_id ≠ 0) ∧
    (∀ x ∈ ([-99, -1, 0] : List Int),
      ∀ (edited : List String) (search : Int → Option String)
        (respClaims : String → Option (Option (List String)))
        (accept : String → List String) (tokenAt : Nat → String),
        x ∉ gnSearches
          (gnRun edited search respClaims accept tokenAt (gnQuery spr conc)).2) ∧
    (∀ x ∈ ([-99, -1, 0] : List Int),
      ∀ (edited : List String) (search : Int → Option String)
        (tokenAt : Nat → String) (wofIds others : List Int)
        (mapTable : List (String × Int)),
        x ∉ (gpRun edited search tokenAt wofIds others mapTable
          (gpQuery spr conc)).searches) := by
  refine ⟨gnQuery_other_id spr conc, gpQuery_other_id spr conc, ?_, ?_⟩
  · intro x hx edited search respClaims accept tokenAt hmem
    unfold gnRun at hmem
    rw [gnLoop_searches] at hmem
    simp only [gnSearches, List.filterMap_nil, List.nil_append] at hmem
    rcases List.mem_map.mp hmem with ⟨c, hc, hcx⟩
    have h3 := gnQuery_other_id spr conc c hc
    rw [hcx] at h3
    simp at hx
    rcases hx with hx | hx | hx
    · exact h3.1 hx
    · exact h3.2.1 hx
    · exact h3.2.2 hx
  · intro x hx edited search tokenAt wofIds others mapTable hmem
    unfold gpRun at hmem
    rw [gpLoop_searches] at hmem
    simp only [List.nil_append] at hmem
    rcases List.mem_map.mp hmem with ⟨c, hc, hcx⟩
    have h3 := gpQuery_other_id spr conc c (mem_gpCandidates wofIds others _ c hc).1
    rw [hcx] at h3
    simp at hx
    rcases hx with hx | hx | hx
    · exact h3.1 hx
    · exact h3.2.1 hx
    · exact h3.2.2 hx

theorem c10_excluded_ids_witness :
    ((-1 : Int) ∈ ([-99, -1, 0] : List Int)) ∧
    (-1 : Int) ∉ (gpRun [] (fun _ => some "Q1") (fun _ => "t") [] [] []
        (gpQuery [⟨1, "locality", 1, 0⟩] [⟨1, "gp:id", -1⟩])).searches :=
  ⟨by decide,
    (c10_excluded_ids [⟨1, "locality", 1, 0⟩] [⟨1, "gp:id", -1⟩]).2.2.2
      (-1) (by decide) [] (fun _ => some "Q1") (fun _ => "t") [] [] []⟩

end WofBot
